import Mathlib

/-!
Shallow embedding of `pkg/worker/verifier/transactional_producer_worker.go`
from kgo-verifier: the transactional producer worker.

Pure data and the control flow of `produceInner` and `Wait` are translated
directly from the source.  The protocol client, the random source and the
asynchronous acknowledgement delivery schedule are abstracted into an
explicit per-epoch environment (`EpochEnv`): every broker/client response the
code consumes (begin/flush/end results, acknowledged offsets, delivery
failures) and every random draw (abort roll, partition choice) is an input
stream, and the interleaving of completion callbacks with the dispatch loop
is an arrival schedule processed at message-iteration boundaries, which is
the granularity at which the code itself inspects callback effects
(`len(bad_offsets) == 0`).  Counters model the `Status` deltas accumulated by
one epoch; `waitGo` threads epochs the way `Wait` does.
-/

/-- Decimal digit values of a natural number, most significant first,
computed with explicit fuel; this is the decimal rendering performed by
fmt's `%d` verb. -/
def natDigitsGo : Nat → Nat → List Nat → List Nat
  | 0, _, acc => acc
  | fuel + 1, n, acc =>
    if n < 10 then n :: acc
    else natDigitsGo fuel (n / 10) (n % 10 :: acc)

/-- Decimal digit values of `n`, most significant first. -/
def natDigitsN (n : Nat) : List Nat := natDigitsGo (n + 1) n []

/-- ASCII characters for a list of decimal digit values. -/
def digitsToChars (ds : List Nat) : List Char := ds.map (fun d => Char.ofNat (48 + d))

/-- Value denoted by a list of decimal digit values, most significant
first. -/
def decodeDigitsN (ds : List Nat) : Nat := ds.foldl (fun a d => a * 10 + d) 0

/-- Left-pad a digit list with zeros up to width `w` (no-op when already at
least that wide), as fmt's zero-padding flag does. -/
def zeroPadLeft (w : Nat) (ds : List Nat) : List Nat :=
  List.replicate (w - ds.length) 0 ++ ds

/-- Rendering of fmt's `%0Nd`: minimum width `w`, zero padded, the sign
counting toward the width. -/
def goFmtInt (w : Nat) (v : Int) : String :=
  if v < 0 then String.mk (Char.ofNat 45 :: digitsToChars (zeroPadLeft (w - 1) (natDigitsN v.natAbs)))
  else String.mk (digitsToChars (zeroPadLeft w (natDigitsN v.toNat)))

/-- Fields of a produced record that the worker sets (`kgo.Record`): the key,
the opaque payload length, the optional fake timestamp (nanoseconds), and the
manually assigned partition. -/
structure GoRecord where
  key : String
  payloadLen : Nat
  timestampNs : Option Int
  partition : Nat
deriving DecidableEq, Repr

/-- Key layout written by `newRecord` (lines 62-72): normal records carry
`"%06d.%018d"` of producer id and sequence; records of a transaction that is
predetermined to abort carry the same with the sentinel `"ABORTED MSG: "`
prefixed. -/
def recordKey (producerId : Int) (sequence : Int) (aborted : Bool) : String :=
  if !aborted then goFmtInt 6 producerId ++ "." ++ goFmtInt 18 sequence
  else "ABORTED MSG: " ++ (goFmtInt 6 producerId ++ "." ++ goFmtInt 18 sequence)

/-- Embedding of `newRecord` (lines 62-83).  The worker's mutable
`fakeTimestampMs` cursor is passed and returned explicitly; `-1` means "use
wall clock" and leaves the record without an assigned timestamp. -/
def newRecord (messageSize : Nat) (fakeTimestampMs : Int) (producerId : Int)
    (sequence : Int) (aborted : Bool) : GoRecord × Int :=
  let r : GoRecord :=
    { key := recordKey producerId sequence aborted
      payloadLen := messageSize
      timestampNs := if fakeTimestampMs ≠ -1 then some (fakeTimestampMs * 1000000) else none
      partition := 0 }
  if fakeTimestampMs ≠ -1 then (r, fakeTimestampMs + 1) else (r, fakeTimestampMs)

/-- Configuration of the worker (`TransactionalProducerConfig`).  The abort
rate enters only through its comparison with random draws, which the
environment delivers as resolved booleans. -/
structure TransactionalProducerConfig where
  nPartitions : Nat
  messageSize : Nat
  messageCount : Int
  fakeTimestampMs : Int
  msgsPerTransaction : Nat
deriving DecidableEq, Repr

/-- Evidence of a mismatched acknowledgement (`BadOffset`): partition and the
offset actually observed. -/
structure BadOffset where
  partition : Nat
  offset : Int
deriving DecidableEq, Repr

/-- One dispatched produce operation: the chosen partition, the expected
offset captured at send time (`currentOffset`), and the record built for
it. -/
structure Dispatch where
  partition : Nat
  predicted : Int
  record : GoRecord
deriving DecidableEq, Repr

/-- Epoch-local state of one `produceInner` run: the per-partition
expected-offset cursor, the pending abort decision, the `Status` counter
deltas of this epoch, the bad-offset channel contents, the offsets inserted
into the ledger, the dispatched produce operations, and how many completion
callbacks have run. -/
structure EpochState where
  offsets : List Int
  willAbort : Bool
  rollIdx : Nat
  fakeTimestampMs : Int
  produced : Nat
  sent : Nat
  acked : Nat
  badOffsetsCtr : Nat
  failedTransactions : Nat
  latencyObs : Nat
  errored : Bool
  fatal : Bool
  badQueue : List BadOffset
  ledger : List (Nat × Int)
  dispatched : List Dispatch
  ackedUpTo : Nat
deriving DecidableEq, Repr

/-- Per-epoch environment: resolved client/broker responses, resolved random
draws, per-dispatch acknowledged offsets and delivery failures, and the
schedule saying how many completion callbacks have arrived before each
message-iteration boundary. -/
structure EpochEnv where
  clientOk : Bool
  startOffsets : List Int
  roll : Nat → Bool
  part : Nat → Nat
  flushOk : Nat → Bool
  endOk : Nat → Bool
  beginOk : Nat → Bool
  finalFlushOk : Bool
  finalEndOk : Bool
  ackOffset : Nat → Int
  ackFail : Nat → Bool
  arrive : Nat → Nat

/-- Cursor update after a successful `BeginTransaction` (lines 211-215): the
begin leaves one control record in every partition's log. -/
def beginControlAdvance (offsets : List Int) : List Int := offsets.map (fun o => o + 1)

/-- Cursor update at a batch boundary (lines 245-258): a committed
end-transaction plus the next begin leave two control records per partition,
an aborted one leaves only the begin's single control record. -/
def boundaryControlAdvance (willAbort : Bool) (offsets : List Int) : List Int :=
  offsets.map (fun o => if willAbort then o + 1 else o + 2)

/-- Cursor update for one built record (lines 264-265): the chosen
partition's cursor moves up by one. -/
def recordAdvance (p : Nat) (offsets : List Int) : List Int :=
  offsets.set p (offsets.getD p 0 + 1)

/-- Effect of one completion callback on the epoch state (lines 276-289): a
mismatched offset bumps the bad-offset counter, records a `BadOffset` and
marks the epoch errored; a matched one bumps the acked counter, records a
latency sample and inserts the acknowledged pair into the offset ledger. -/
def handleAck (st : EpochState) (d : Dispatch) (ackedOffset : Int) : EpochState :=
  if ackedOffset ≠ d.predicted then
    { st with badOffsetsCtr := st.badOffsetsCtr + 1
              badQueue := st.badQueue ++ [⟨d.partition, ackedOffset⟩]
              errored := true }
  else
    { st with acked := st.acked + 1
              latencyObs := st.latencyObs + 1
              ledger := st.ledger ++ [(d.partition, ackedOffset)] }

/-- Modelled from the spec: the delivery-error check in the completion
callback calls `util.Chk` from `pkg/util`, which is not included under
`src/`; per the spec a delivery-level failure reported by the protocol client
on acknowledgement "aborts the current epoch immediately and propagates to
the Retry Orchestrator", modelled here by the `fatal` flag which
short-circuits the run.  A successful delivery is handled by `handleAck`. -/
def processOne (env : EpochEnv) (st : EpochState) : EpochState :=
  match st.dispatched[st.ackedUpTo]? with
  | none => st
  | some d =>
    if env.ackFail st.ackedUpTo then
      { st with fatal := true, ackedUpTo := st.ackedUpTo + 1 }
    else
      { handleAck st d (env.ackOffset st.ackedUpTo) with ackedUpTo := st.ackedUpTo + 1 }

/-- Run `k` completion callbacks in dispatch order, stopping on a fatal
delivery failure. -/
def processK (env : EpochEnv) : Nat → EpochState → EpochState
  | 0, st => st
  | k + 1, st => if st.fatal then st else processK env k (processOne env st)

/-- Run the completion callbacks that have arrived, up to dispatch index
`target` (clamped to what has actually been dispatched). -/
def processUpTo (env : EpochEnv) (st : EpochState) (target : Nat) : EpochState :=
  processK env (min target st.dispatched.length - st.ackedUpTo) st

/-- Build and dispatch one record (lines 264-293): capture the partition's
expected offset, advance its cursor, build the record with `newRecord` for
the current abort decision and hand it to the asynchronous produce call. -/
def dispatchRecord (cfg : TransactionalProducerConfig) (p : Nat) (st : EpochState) :
    EpochState × Bool :=
  let currentOffset := st.offsets.getD p 0
  let rec' := newRecord cfg.messageSize st.fakeTimestampMs 0 currentOffset st.willAbort
  ({ st with offsets := recordAdvance p st.offsets
             fakeTimestampMs := rec'.2
             dispatched := st.dispatched ++ [⟨p, currentOffset, { rec'.1 with partition := p }⟩] },
    true)

/-- Body of one dispatch-loop iteration (lines 219-293), entered when the
loop condition held: count the message, pick a partition, handle the batch
boundary (flush, end, begin, cursor update, fresh abort roll; any failure
counts a failed transaction, marks the epoch errored and breaks the loop),
then build and dispatch the record.  The returned flag is false when the
iteration broke the loop. -/
def loopBody (cfg : TransactionalProducerConfig) (env : EpochEnv) (i : Nat)
    (st : EpochState) : EpochState × Bool :=
  let st := { st with produced := st.produced + 1, sent := st.sent + 1 }
  let p := env.part i
  if 0 < i ∧ i % cfg.msgsPerTransaction = 0 then
    if !env.flushOk i then
      ({ st with errored := true, failedTransactions := st.failedTransactions + 1 }, false)
    else if !env.endOk i then
      ({ st with errored := true, failedTransactions := st.failedTransactions + 1 }, false)
    else if !env.beginOk i then
      ({ st with errored := true, failedTransactions := st.failedTransactions + 1 }, false)
    else
      let st := { st with offsets := boundaryControlAdvance st.willAbort st.offsets }
      let st := { st with willAbort := env.roll st.rollIdx, rollIdx := st.rollIdx + 1 }
      dispatchRecord cfg p st
  else
    dispatchRecord cfg p st

/-- Dispatch loop of `produceInner` (line 219): before each condition check
the callbacks scheduled to have arrived are run; the loop continues while
messages remain, no fatal delivery failure occurred and the bad-offset
channel is empty. -/
def runLoop (cfg : TransactionalProducerConfig) (env : EpochEnv) :
    Nat → Nat → EpochState → EpochState
  | _, 0, st => st
  | i, rem + 1, st =>
    let st := processUpTo env st (env.arrive i)
    if st.fatal then st
    else if st.badQueue.length = 0 then
      match loopBody cfg env i st with
      | (st', true) => runLoop cfg env (i + 1) rem st'
      | (st', false) => st'
    else st

/-- Result of one epoch: the successful count with the drained bad-offset
list, or a fatal error. -/
inductive EpochOutcome
  | ok (successful : Int) (badOffsets : List BadOffset)
  | fatal
deriving DecidableEq, Repr

/-- Final flush of `produceInner` (lines 303-307): a failure counts a failed
transaction and marks the epoch errored. -/
def finalFlushStep (env : EpochEnv) (st : EpochState) : EpochState :=
  if env.finalFlushOk then st
  else { st with errored := true, failedTransactions := st.failedTransactions + 1 }

/-- Final end-transaction of `produceInner` (lines 308-312): a failure counts
a failed transaction and marks the epoch errored. -/
def finalEndStep (env : EpochEnv) (st : EpochState) : EpochState :=
  if env.finalEndOk then st
  else { st with errored := true, failedTransactions := st.failedTransactions + 1 }

/-- State after the best-effort final flush, final end-transaction and the
wait for every dispatched completion callback (lines 303-318). -/
def finalizedState (env : EpochEnv) (st : EpochState) : EpochState :=
  processUpTo env (finalEndStep env (finalFlushStep env st))
    (finalEndStep env (finalFlushStep env st)).dispatched.length

/-- Finalization of `produceInner` (lines 303-333): best-effort final flush
and end-transaction, wait for every dispatched callback, then return the full
produced count on a clean epoch, and the produced count minus the drained bad
offsets on an errored one.  A fatal delivery failure short-circuits. -/
def finalize (env : EpochEnv) (st : EpochState) : EpochState × EpochOutcome :=
  if st.fatal then (st, EpochOutcome.fatal)
  else
    let st := finalizedState env st
    if st.fatal then (st, EpochOutcome.fatal)
    else if st.errored then
      (st, EpochOutcome.ok ((st.produced : Int) - (st.badQueue.length : Int)) st.badQueue)
    else (st, EpochOutcome.ok (st.produced : Int) [])

/-- Fresh epoch state over the broker's reported start offsets. -/
def initEpochState (fakeTs : Int) (offs : List Int) : EpochState :=
  { offsets := offs, willAbort := false, rollIdx := 0, fakeTimestampMs := fakeTs
    produced := 0, sent := 0, acked := 0, badOffsetsCtr := 0, failedTransactions := 0
    latencyObs := 0, errored := false, fatal := false, badQueue := [], ledger := []
    dispatched := [], ackedUpTo := 0 }

/-- Embedding of `produceInner` (lines 171-334): client construction failure
is fatal; the initial `BeginTransaction` failure counts a failed transaction
and is returned as an error; otherwise the per-partition cursor accounts for
the begin's control records, the initial abort decision is rolled and the
dispatch loop runs, followed by finalization. -/
def produceInner (cfg : TransactionalProducerConfig) (env : EpochEnv)
    (fakeTs : Int) (n : Int) : EpochState × EpochOutcome :=
  if !env.clientOk then (initEpochState fakeTs [], EpochOutcome.fatal)
  else
    let st0 := initEpochState fakeTs env.startOffsets
    if !env.beginOk 0 then ({ st0 with failedTransactions := 1 }, EpochOutcome.fatal)
    else
      let st1 := { st0 with offsets := beginControlAdvance st0.offsets
                            willAbort := env.roll 0, rollIdx := 1 }
      finalize env (runLoop cfg env 0 n.toNat st1)

/-- Embedding of the loop in `Wait` (lines 151-168), with fuel bounding the
number of epochs: runs `produceInner` on the still-remaining count, returns
the error immediately on a fatal epoch, returns success once the remainder
is at most zero, and otherwise recurses after counting a restart.  The
result carries success/failure, the final restart counter and the number of
epochs run; `none` means the fuel ran out before either exit. -/
def waitGo (cfg : TransactionalProducerConfig) (envs : Nat → EpochEnv) :
    Nat → Nat → Int → Int → Nat → Option (Bool × Nat × Nat)
  | 0, _, _, _, _ => none
  | fuel + 1, k, fakeTs, n, restarts =>
    let res := produceInner cfg (envs k) fakeTs n
    match res.2 with
    | EpochOutcome.fatal => some (false, restarts, 1)
    | EpochOutcome.ok s _bad =>
      if n - s ≤ 0 then some (true, restarts, 1)
      else
        match waitGo cfg envs fuel (k + 1) res.1.fakeTimestampMs (n - s) (restarts + 1) with
        | some (b, r, e) => some (b, r, e + 1)
        | none => none

/-- Embedding of `Wait` (lines 145-169): starts the retry loop at the
configured message count with zero restarts. -/
def Wait (cfg : TransactionalProducerConfig) (envs : Nat → EpochEnv) (fuel : Nat) :
    Option (Bool × Nat × Nat) :=
  waitGo cfg envs fuel 0 cfg.fakeTimestampMs cfg.messageCount 0

/-- One struct field as seen by Go's `encoding/json`: Go name, whether it is
exported, whether it carries a tag, and its effective JSON name. -/
structure GoJsonField where
  goName : String
  exported : Bool
  tagged : Bool
  jsonName : String
deriving DecidableEq, Repr

/-- Field list of `TransactionalProducerWorkerStatus` (lines 85-115) with the
struct tags exactly as written in the source; note lines 107 and 109 tag both
`Latency` and `Active` as `latency`. -/
def statusJsonFields : List GoJsonField :=
  [ ⟨"Sent", true, true, "sent"⟩,
    ⟨"Acked", true, true, "acked"⟩,
    ⟨"BadOffsets", true, true, "bad_offsets"⟩,
    ⟨"FailedTransactions", true, true, "failed_transactions"⟩,
    ⟨"Restarts", true, true, "restarts"⟩,
    ⟨"latency", false, false, "latency"⟩,
    ⟨"Latency", true, true, "latency"⟩,
    ⟨"Active", true, true, "latency"⟩,
    ⟨"lock", false, false, "lock"⟩,
    ⟨"lastCheckpoint", false, false, "lastCheckpoint"⟩ ]

/-- JSON field names `encoding/json` emits for a flat struct: unexported
fields are invisible; among visible fields sharing a JSON name, a unique
holder keeps it, otherwise a single tagged one wins, and a tie drops every
contender (the Go visible-fields conflict rule, all fields here being at the
same depth). -/
def jsonVisibleNames (fs : List GoJsonField) : List String :=
  let exp := fs.filter (fun f => f.exported)
  (exp.filter (fun f =>
      let same := exp.filter (fun g => g.jsonName == f.jsonName)
      same.length == 1 || (same.countP (fun g => g.tagged) == 1 && f.tagged))).map
    (fun f => f.jsonName)

/-- Single-partition configuration used by concrete runs: one partition,
empty payload, two messages requested, wall-clock timestamps, batches of
ten. -/
def cfgOnePart : TransactionalProducerConfig := ⟨1, 0, 2, -1, 10⟩

/-- Configuration hitting a batch boundary: three messages in batches of
two. -/
def cfgBatchTwo : TransactionalProducerConfig := ⟨1, 0, 3, -1, 2⟩

/-- Clean environment: everything succeeds and every acknowledgement lands
at the predicted offset (dispatch `j` of the single partition is predicted
at offset `j + 1` after the initial begin's control record). -/
def envClean : EpochEnv :=
  { clientOk := true, startOffsets := [0], roll := fun _ => false, part := fun _ => 0
    flushOk := fun _ => true, endOk := fun _ => true, beginOk := fun _ => true
    finalFlushOk := true, finalEndOk := true
    ackOffset := fun j => (j : Int) + 1, ackFail := fun _ => false, arrive := fun _ => 0 }

/-- Environment whose flush fails at the batch boundary of iteration 2. -/
def envFlushFail : EpochEnv := { envClean with flushOk := fun i => !(i == 2) }

/-- Environment acknowledging every record at offset 99, with callbacks
arriving before each iteration. -/
def envBadAck : EpochEnv :=
  { envClean with ackOffset := fun _ => 99, arrive := fun i => i }

/-- Environment whose very first `BeginTransaction` fails. -/
def envBeginFail : EpochEnv := { envClean with beginOk := fun _ => false }

/-- Environment whose client construction fails. -/
def envNoClient : EpochEnv := { envClean with clientOk := false }

/-- Environment reporting a delivery failure on every acknowledgement. -/
def envAckFail : EpochEnv := { envClean with ackFail := fun _ => true }

/-- Epoch sequence whose first epoch sees bad offsets and whose later
epochs are clean. -/
def envSeq : Nat → EpochEnv := fun k => if k = 0 then envBadAck else envClean

/-- Example dispatched produce operation. -/
def dispatchEx : Dispatch := ⟨0, 1, (newRecord 0 (-1) 0 1 false).1⟩

/-- Epoch state that already holds one bad offset in the channel. -/
def stWithBad : EpochState :=
  { initEpochState (-1) [0] with badQueue := [⟨0, 5⟩] }

/-- Epoch state with one dispatched, unacknowledged produce operation. -/
def stDispatchedOne : EpochState :=
  { initEpochState (-1) [0] with dispatched := [dispatchEx] }

/-- Epoch state on which a fatal delivery failure has been recorded. -/
def stFatal : EpochState := { initEpochState (-1) [] with fatal := true }

/-- Environment whose end-transaction fails at the batch boundary of
iteration 2. -/
def envEndFail : EpochEnv := { envClean with endOk := fun i => !(i == 2) }

/-- Environment whose boundary begin-transaction fails at iteration 2 (the
initial begin, call index 0, still succeeds). -/
def envBoundaryBeginFail : EpochEnv := { envClean with beginOk := fun i => !(i == 2) }

lemma natDigitsGo_append (fuel : Nat) : ∀ (n : Nat) (acc : List Nat),
    natDigitsGo fuel n acc = natDigitsGo fuel n [] ++ acc := by
  induction fuel with
  | zero => intro n acc; simp [natDigitsGo]
  | succ fuel ih =>
    intro n acc
    by_cases h : n < 10
    · simp [natDigitsGo, h]
    · simp only [natDigitsGo, if_neg h]
      rw [ih (n / 10) (n % 10 :: acc), ih (n / 10) [n % 10]]
      simp

lemma natDigitsGo_fuel : ∀ (fuel fuel' n : Nat), n < fuel → n < fuel' →
    natDigitsGo fuel n [] = natDigitsGo fuel' n [] := by
  intro fuel
  induction fuel with
  | zero => intro fuel' n h; omega
  | succ fuel ih =>
    intro fuel' n h h'
    match fuel', h' with
    | fuel' + 1, h' =>
      by_cases h10 : n < 10
      · simp [natDigitsGo, h10]
      · simp only [natDigitsGo, if_neg h10]
        rw [natDigitsGo_append fuel, natDigitsGo_append fuel']
        have hd : n / 10 < n := Nat.div_lt_self (by omega) (by omega)
        rw [ih fuel' (n / 10) (by omega) (by omega)]

lemma natDigitsN_small {n : Nat} (h : n < 10) : natDigitsN n = [n] := by
  simp [natDigitsN, natDigitsGo, h]

lemma natDigitsN_step {n : Nat} (h : 10 ≤ n) :
    natDigitsN n = natDigitsN (n / 10) ++ [n % 10] := by
  have h1 : natDigitsN n = natDigitsGo n (n / 10) [n % 10] := by
    rw [natDigitsN]
    rw [show natDigitsGo (n + 1) n [] =
        if n < 10 then n :: [] else natDigitsGo n (n / 10) (n % 10 :: []) from rfl]
    rw [if_neg (by omega)]
  rw [h1, natDigitsGo_append n (n / 10) [n % 10],
    natDigitsGo_fuel n (n / 10 + 1) (n / 10) (by omega) (by omega)]
  rfl

lemma decodeDigitsN_append_singleton (ds : List Nat) (d : Nat) :
    decodeDigitsN (ds ++ [d]) = decodeDigitsN ds * 10 + d := by
  simp [decodeDigitsN, List.foldl_append]

lemma decode_natDigitsN : ∀ n : Nat, decodeDigitsN (natDigitsN n) = n := by
  intro n
  induction n using Nat.strong_induction_on with
  | _ n ih =>
    by_cases h : n < 10
    · simp [natDigitsN_small h, decodeDigitsN]
    · rw [natDigitsN_step (by omega), decodeDigitsN_append_singleton]
      rw [ih (n / 10) (Nat.div_lt_self (by omega) (by omega))]
      omega

lemma decode_replicate_zero : ∀ (m : Nat) (ds : List Nat),
    decodeDigitsN (List.replicate m 0 ++ ds) = decodeDigitsN ds := by
  intro m
  induction m with
  | zero => intro ds; simp
  | succ m ih =>
    intro ds
    simp only [List.replicate_succ, List.cons_append]
    show decodeDigitsN (List.replicate m 0 ++ ds) = decodeDigitsN ds
    exact ih ds

lemma decode_zeroPadLeft (w : Nat) (ds : List Nat) :
    decodeDigitsN (zeroPadLeft w ds) = decodeDigitsN ds := by
  simp [zeroPadLeft, decode_replicate_zero]

lemma natDigitsN_length_le : ∀ (n k : Nat), n < 10 ^ k → 0 < k →
    (natDigitsN n).length ≤ k := by
  intro n
  induction n using Nat.strong_induction_on with
  | _ n ih =>
    intro k hk hk0
    by_cases h : n < 10
    · simp [natDigitsN_small h]; omega
    · have hk2 : 2 ≤ k := by
        rcases Nat.lt_or_ge k 2 with hlt | hge
        · have hk1 : k = 1 := by omega
          subst hk1
          norm_num at hk
          omega
        · exact hge
      rw [natDigitsN_step (by omega)]
      simp only [List.length_append, List.length_cons, List.length_nil]
      have hdiv : n / 10 < 10 ^ (k - 1) := by
        rw [Nat.div_lt_iff_lt_mul (by omega : 0 < 10)]
        calc n < 10 ^ k := hk
        _ = 10 ^ (k - 1) * 10 := by
            rw [← Nat.pow_succ]
            congr 1
            omega
      have := ih (n / 10) (Nat.div_lt_self (by omega) (by omega)) (k - 1) hdiv (by omega)
      omega

lemma string_mk_length (cs : List Char) : (String.mk cs).length = cs.length := rfl

lemma goFmtInt_length_of_bounds {w : Nat} {v : Int} (h0 : 0 ≤ v)
    (hw : 0 < w) (hv : v.toNat < 10 ^ w) : (goFmtInt w v).length = w := by
  rw [goFmtInt, if_neg (by omega)]
  rw [string_mk_length]
  simp only [digitsToChars, List.length_map, zeroPadLeft, List.length_append,
    List.length_replicate]
  have := natDigitsN_length_le v.toNat w hv hw
  omega

lemma getD_map_add (f : Int → Int) (l : List Int) (j : Nat) (h : j < l.length) :
    (l.map f).getD j 0 = f (l.getD j 0) := by
  rw [List.getD_eq_getElem?_getD, List.getD_eq_getElem?_getD]
  rw [List.getElem?_map]
  rw [List.getElem?_eq_getElem h]
  rfl

lemma getD_set_self (l : List Int) (p : Nat) (a : Int) (h : p < l.length) :
    (l.set p a).getD p 0 = a := by
  rw [List.getD_eq_getElem?_getD, List.getElem?_set_self']
  rw [List.getElem?_eq_getElem h]
  rfl

lemma getD_set_ne (l : List Int) (p j : Nat) (a : Int) (h : j ≠ p) :
    (l.set p a).getD j 0 = l.getD j 0 := by
  rw [List.getD_eq_getElem?_getD, List.getD_eq_getElem?_getD]
  rw [List.getElem?_set_ne (by omega)]

@[simp] lemma handleAck_dispatched (st : EpochState) (d : Dispatch) (off : Int) :
    (handleAck st d off).dispatched = st.dispatched := by
  rw [handleAck]; split <;> rfl

@[simp] lemma handleAck_ackedUpTo (st : EpochState) (d : Dispatch) (off : Int) :
    (handleAck st d off).ackedUpTo = st.ackedUpTo := by
  rw [handleAck]; split <;> rfl

@[simp] lemma handleAck_fatal (st : EpochState) (d : Dispatch) (off : Int) :
    (handleAck st d off).fatal = st.fatal := by
  rw [handleAck]; split <;> rfl

@[simp] lemma handleAck_sent (st : EpochState) (d : Dispatch) (off : Int) :
    (handleAck st d off).sent = st.sent := by
  rw [handleAck]; split <;> rfl

@[simp] lemma handleAck_produced (st : EpochState) (d : Dispatch) (off : Int) :
    (handleAck st d off).produced = st.produced := by
  rw [handleAck]; split <;> rfl

@[simp] lemma handleAck_failedTransactions (st : EpochState) (d : Dispatch) (off : Int) :
    (handleAck st d off).failedTransactions = st.failedTransactions := by
  rw [handleAck]; split <;> rfl

@[simp] lemma handleAck_offsets (st : EpochState) (d : Dispatch) (off : Int) :
    (handleAck st d off).offsets = st.offsets := by
  rw [handleAck]; split <;> rfl

@[simp] lemma handleAck_fakeTimestampMs (st : EpochState) (d : Dispatch) (off : Int) :
    (handleAck st d off).fakeTimestampMs = st.fakeTimestampMs := by
  rw [handleAck]; split <;> rfl

@[simp] lemma processOne_dispatched (env : EpochEnv) (st : EpochState) :
    (processOne env st).dispatched = st.dispatched := by
  rw [processOne]; split
  · rfl
  · split <;> simp

@[simp] lemma processOne_sent (env : EpochEnv) (st : EpochState) :
    (processOne env st).sent = st.sent := by
  rw [processOne]; split
  · rfl
  · split <;> simp

@[simp] lemma processOne_produced (env : EpochEnv) (st : EpochState) :
    (processOne env st).produced = st.produced := by
  rw [processOne]; split
  · rfl
  · split <;> simp

@[simp] lemma processOne_failedTransactions (env : EpochEnv) (st : EpochState) :
    (processOne env st).failedTransactions = st.failedTransactions := by
  rw [processOne]; split
  · rfl
  · split <;> simp

@[simp] lemma processOne_offsets (env : EpochEnv) (st : EpochState) :
    (processOne env st).offsets = st.offsets := by
  rw [processOne]; split
  · rfl
  · split <;> simp

@[simp] lemma processOne_fakeTimestampMs (env : EpochEnv) (st : EpochState) :
    (processOne env st).fakeTimestampMs = st.fakeTimestampMs := by
  rw [processOne]; split
  · rfl
  · split <;> simp

lemma processK_dispatched (env : EpochEnv) : ∀ (k : Nat) (st : EpochState),
    (processK env k st).dispatched = st.dispatched := by
  intro k
  induction k with
  | zero => intro st; rfl
  | succ k ih =>
    intro st
    rw [processK]
    split
    · rfl
    · rw [ih, processOne_dispatched]

lemma processK_sent (env : EpochEnv) : ∀ (k : Nat) (st : EpochState),
    (processK env k st).sent = st.sent := by
  intro k
  induction k with
  | zero => intro st; rfl
  | succ k ih =>
    intro st
    rw [processK]
    split
    · rfl
    · rw [ih, processOne_sent]

lemma processK_produced (env : EpochEnv) : ∀ (k : Nat) (st : EpochState),
    (processK env k st).produced = st.produced := by
  intro k
  induction k with
  | zero => intro st; rfl
  | succ k ih =>
    intro st
    rw [processK]
    split
    · rfl
    · rw [ih, processOne_produced]

lemma processK_offsets (env : EpochEnv) : ∀ (k : Nat) (st : EpochState),
    (processK env k st).offsets = st.offsets := by
  intro k
  induction k with
  | zero => intro st; rfl
  | succ k ih =>
    intro st
    rw [processK]
    split
    · rfl
    · rw [ih, processOne_offsets]

@[simp] lemma processUpTo_dispatched (env : EpochEnv) (st : EpochState) (t : Nat) :
    (processUpTo env st t).dispatched = st.dispatched := by
  rw [processUpTo, processK_dispatched]

@[simp] lemma processUpTo_sent (env : EpochEnv) (st : EpochState) (t : Nat) :
    (processUpTo env st t).sent = st.sent := by
  rw [processUpTo, processK_sent]

@[simp] lemma processUpTo_offsets (env : EpochEnv) (st : EpochState) (t : Nat) :
    (processUpTo env st t).offsets = st.offsets := by
  rw [processUpTo, processK_offsets]

/-- Master state invariant tying the epoch counters, the callback cursor,
the dispatched operations, the bad-offset channel and the ledger
together. -/
def StInv (st : EpochState) : Prop :=
  st.acked + st.badOffsetsCtr ≤ st.ackedUpTo ∧
  st.ackedUpTo ≤ st.dispatched.length ∧
  st.dispatched.length ≤ st.sent ∧
  (st.errored = false → st.badQueue = []) ∧
  ∀ pr ∈ st.ledger, ∃ d ∈ st.dispatched, d.partition = pr.1 ∧ d.predicted = pr.2


lemma handleAck_eq_bad (st : EpochState) (d : Dispatch) (off : Int)
    (h : off ≠ d.predicted) :
    handleAck st d off =
      { st with badOffsetsCtr := st.badOffsetsCtr + 1
                badQueue := st.badQueue ++ [⟨d.partition, off⟩]
                errored := true } := by
  rw [handleAck, if_pos h]

lemma handleAck_eq_ok (st : EpochState) (d : Dispatch) (off : Int)
    (h : off = d.predicted) :
    handleAck st d off =
      { st with acked := st.acked + 1
                latencyObs := st.latencyObs + 1
                ledger := st.ledger ++ [(d.partition, off)] } := by
  rw [handleAck, if_neg (by simp [h])]

lemma processOne_eq_none (env : EpochEnv) (st : EpochState)
    (h : st.dispatched[st.ackedUpTo]? = none) : processOne env st = st := by
  rw [processOne, h]

lemma processOne_eq_fail (env : EpochEnv) (st : EpochState) (d : Dispatch)
    (h : st.dispatched[st.ackedUpTo]? = some d) (hf : env.ackFail st.ackedUpTo = true) :
    processOne env st = { st with fatal := true, ackedUpTo := st.ackedUpTo + 1 } := by
  rw [processOne, h]
  simp [hf]

lemma processOne_eq_deliver (env : EpochEnv) (st : EpochState) (d : Dispatch)
    (h : st.dispatched[st.ackedUpTo]? = some d) (hf : env.ackFail st.ackedUpTo = false) :
    processOne env st =
      { handleAck st d (env.ackOffset st.ackedUpTo) with ackedUpTo := st.ackedUpTo + 1 } := by
  rw [processOne, h]
  simp [hf]

lemma stInv_processOne (env : EpochEnv) (st : EpochState) (h : StInv st) :
    StInv (processOne env st) := by
  obtain ⟨h1, h2, h3, h4, h5⟩ := h
  cases hget : st.dispatched[st.ackedUpTo]? with
  | none => rw [processOne_eq_none env st hget]; exact ⟨h1, h2, h3, h4, h5⟩
  | some d =>
    have hlt : st.ackedUpTo < st.dispatched.length := by
      by_contra hc
      rw [List.getElem?_eq_none (by omega)] at hget
      exact Option.noConfusion hget
    have hmem : d ∈ st.dispatched := List.getElem?_mem hget
    cases hf : env.ackFail st.ackedUpTo with
    | true =>
      rw [processOne_eq_fail env st d hget hf]
      refine ⟨?_, ?_, h3, h4, h5⟩
      · show st.acked + st.badOffsetsCtr ≤ st.ackedUpTo + 1
        omega
      · show st.ackedUpTo + 1 ≤ st.dispatched.length
        omega
    | false =>
      rw [processOne_eq_deliver env st d hget hf]
      by_cases hoff : env.ackOffset st.ackedUpTo = d.predicted
      · rw [handleAck_eq_ok st d _ hoff]
        refine ⟨?_, ?_, h3, h4, ?_⟩
        · show st.acked + 1 + st.badOffsetsCtr ≤ st.ackedUpTo + 1
          omega
        · show st.ackedUpTo + 1 ≤ st.dispatched.length
          omega
        · intro pr hpr
          have hpr' : pr ∈ st.ledger ++ [(d.partition, env.ackOffset st.ackedUpTo)] := hpr
          rw [List.mem_append] at hpr'
          rcases hpr' with hin | hin
          · exact h5 pr hin
          · rw [List.mem_singleton] at hin
            subst hin
            exact ⟨d, hmem, rfl, hoff.symm⟩
      · rw [handleAck_eq_bad st d _ hoff]
        refine ⟨?_, ?_, h3, ?_, h5⟩
        · show st.acked + (st.badOffsetsCtr + 1) ≤ st.ackedUpTo + 1
          omega
        · show st.ackedUpTo + 1 ≤ st.dispatched.length
          omega
        · intro hfalse
          exact absurd hfalse (by simp)

lemma stInv_processK (env : EpochEnv) : ∀ (k : Nat) (st : EpochState), StInv st →
    StInv (processK env k st) := by
  intro k
  induction k with
  | zero => intro st h; exact h
  | succ k ih =>
    intro st h
    rw [processK]
    split
    · exact h
    · exact ih _ (stInv_processOne env st h)

lemma stInv_processUpTo (env : EpochEnv) (st : EpochState) (t : Nat) (h : StInv st) :
    StInv (processUpTo env st t) := stInv_processK env _ st h

@[simp] lemma dispatchRecord_continue (cfg : TransactionalProducerConfig) (p : Nat)
    (st : EpochState) : (dispatchRecord cfg p st).2 = true := rfl

@[simp] lemma dispatchRecord_offsets (cfg : TransactionalProducerConfig) (p : Nat)
    (st : EpochState) : (dispatchRecord cfg p st).1.offsets = recordAdvance p st.offsets := rfl

@[simp] lemma dispatchRecord_dispatched (cfg : TransactionalProducerConfig) (p : Nat)
    (st : EpochState) : (dispatchRecord cfg p st).1.dispatched =
      st.dispatched ++ [⟨p, st.offsets.getD p 0,
        { (newRecord cfg.messageSize st.fakeTimestampMs 0 (st.offsets.getD p 0)
            st.willAbort).1 with partition := p }⟩] := rfl

@[simp] lemma dispatchRecord_sent (cfg : TransactionalProducerConfig) (p : Nat)
    (st : EpochState) : (dispatchRecord cfg p st).1.sent = st.sent := rfl

@[simp] lemma dispatchRecord_produced (cfg : TransactionalProducerConfig) (p : Nat)
    (st : EpochState) : (dispatchRecord cfg p st).1.produced = st.produced := rfl

@[simp] lemma dispatchRecord_acked (cfg : TransactionalProducerConfig) (p : Nat)
    (st : EpochState) : (dispatchRecord cfg p st).1.acked = st.acked := rfl

@[simp] lemma dispatchRecord_badOffsetsCtr (cfg : TransactionalProducerConfig) (p : Nat)
    (st : EpochState) : (dispatchRecord cfg p st).1.badOffsetsCtr = st.badOffsetsCtr := rfl

@[simp] lemma dispatchRecord_ackedUpTo (cfg : TransactionalProducerConfig) (p : Nat)
    (st : EpochState) : (dispatchRecord cfg p st).1.ackedUpTo = st.ackedUpTo := rfl

@[simp] lemma dispatchRecord_errored (cfg : TransactionalProducerConfig) (p : Nat)
    (st : EpochState) : (dispatchRecord cfg p st).1.errored = st.errored := rfl

@[simp] lemma dispatchRecord_fatal (cfg : TransactionalProducerConfig) (p : Nat)
    (st : EpochState) : (dispatchRecord cfg p st).1.fatal = st.fatal := rfl

@[simp] lemma dispatchRecord_badQueue (cfg : TransactionalProducerConfig) (p : Nat)
    (st : EpochState) : (dispatchRecord cfg p st).1.badQueue = st.badQueue := rfl

@[simp] lemma dispatchRecord_ledger (cfg : TransactionalProducerConfig) (p : Nat)
    (st : EpochState) : (dispatchRecord cfg p st).1.ledger = st.ledger := rfl

@[simp] lemma dispatchRecord_failedTransactions (cfg : TransactionalProducerConfig) (p : Nat)
    (st : EpochState) : (dispatchRecord cfg p st).1.failedTransactions =
      st.failedTransactions := rfl

lemma stInv_dispatchRecord (cfg : TransactionalProducerConfig) (p : Nat) (st : EpochState)
    (h1 : st.acked + st.badOffsetsCtr ≤ st.ackedUpTo)
    (h2 : st.ackedUpTo ≤ st.dispatched.length)
    (h3 : st.dispatched.length + 1 ≤ st.sent)
    (h4 : st.errored = false → st.badQueue = [])
    (h5 : ∀ pr ∈ st.ledger, ∃ d ∈ st.dispatched, d.partition = pr.1 ∧ d.predicted = pr.2) :
    StInv (dispatchRecord cfg p st).1 := by
  refine ⟨?_, ?_, ?_, ?_, ?_⟩
  · simpa using h1
  · simp only [dispatchRecord_ackedUpTo, dispatchRecord_dispatched, List.length_append,
      List.length_cons, List.length_nil]
    omega
  · simp only [dispatchRecord_sent, dispatchRecord_dispatched, List.length_append,
      List.length_cons, List.length_nil]
    omega
  · simpa using h4
  · simp only [dispatchRecord_ledger, dispatchRecord_dispatched]
    intro pr hpr
    obtain ⟨d, hd, hh⟩ := h5 pr hpr
    exact ⟨d, List.mem_append_left _ hd, hh⟩

lemma stInv_loopBody (cfg : TransactionalProducerConfig) (env : EpochEnv) (i : Nat)
    (st : EpochState) (h : StInv st) : StInv (loopBody cfg env i st).1 := by
  obtain ⟨h1, h2, h3, h4, h5⟩ := h
  rw [loopBody]
  split
  · split
    · exact ⟨h1, h2, by show st.dispatched.length ≤ st.sent + 1; omega,
        fun hf => Bool.noConfusion hf, h5⟩
    · split
      · exact ⟨h1, h2, by show st.dispatched.length ≤ st.sent + 1; omega,
          fun hf => Bool.noConfusion hf, h5⟩
      · split
        · exact ⟨h1, h2, by show st.dispatched.length ≤ st.sent + 1; omega,
            fun hf => Bool.noConfusion hf, h5⟩
        · exact stInv_dispatchRecord cfg (env.part i) _ h1 h2 (by show st.dispatched.length + 1 ≤ st.sent + 1; omega)
            h4 h5
  · exact stInv_dispatchRecord cfg (env.part i) _ h1 h2 (by show st.dispatched.length + 1 ≤ st.sent + 1; omega)
      h4 h5

lemma stInv_runLoop (cfg : TransactionalProducerConfig) (env : EpochEnv) :
    ∀ (rem i : Nat) (st : EpochState), StInv st → StInv (runLoop cfg env i rem st) := by
  intro rem
  induction rem with
  | zero => intro i st h; exact h
  | succ rem ih =>
    intro i st h
    rw [runLoop]
    have h' := stInv_processUpTo env st (env.arrive i) h
    split
    · exact h'
    · split
      · split
        · rename_i st' hbody
          have := stInv_loopBody cfg env i (processUpTo env st (env.arrive i)) h'
          rw [hbody] at this
          exact ih (i + 1) st' this
        · rename_i st' hbody
          have := stInv_loopBody cfg env i (processUpTo env st (env.arrive i)) h'
          rw [hbody] at this
          exact this
      · exact h'

lemma stInv_initEpochState (fakeTs : Int) (offs : List Int) :
    StInv (initEpochState fakeTs offs) := by
  refine ⟨?_, ?_, ?_, ?_, ?_⟩ <;> simp [initEpochState]

lemma stInv_finalFlushStep (env : EpochEnv) (st : EpochState) (h : StInv st) :
    StInv (finalFlushStep env st) := by
  obtain ⟨h1, h2, h3, h4, h5⟩ := h
  rw [finalFlushStep]
  split
  · exact ⟨h1, h2, h3, h4, h5⟩
  · exact ⟨h1, h2, h3, fun hf => Bool.noConfusion hf, h5⟩

lemma stInv_finalEndStep (env : EpochEnv) (st : EpochState) (h : StInv st) :
    StInv (finalEndStep env st) := by
  obtain ⟨h1, h2, h3, h4, h5⟩ := h
  rw [finalEndStep]
  split
  · exact ⟨h1, h2, h3, h4, h5⟩
  · exact ⟨h1, h2, h3, fun hf => Bool.noConfusion hf, h5⟩

lemma stInv_finalizedState (env : EpochEnv) (st : EpochState) (h : StInv st) :
    StInv (finalizedState env st) :=
  stInv_processUpTo env _ _ (stInv_finalEndStep env _ (stInv_finalFlushStep env st h))

lemma finalize_fst (env : EpochEnv) (st : EpochState) :
    (finalize env st).1 = if st.fatal then st else finalizedState env st := by
  rw [finalize]
  split
  · rfl
  · dsimp only
    split
    · rfl
    · split
      · rfl
      · rfl

lemma stInv_finalize (env : EpochEnv) (st : EpochState) (h : StInv st) :
    StInv (finalize env st).1 := by
  rw [finalize_fst]
  split
  · exact h
  · exact stInv_finalizedState env st h

lemma stInv_produceInner (cfg : TransactionalProducerConfig) (env : EpochEnv)
    (fakeTs : Int) (n : Int) : StInv (produceInner cfg env fakeTs n).1 := by
  rw [produceInner]
  split
  · exact stInv_initEpochState fakeTs []
  · split
    · have := stInv_initEpochState fakeTs env.startOffsets
      obtain ⟨h1, h2, h3, h4, h5⟩ := this
      exact ⟨h1, h2, h3, h4, h5⟩
    · apply stInv_finalize
      apply stInv_runLoop
      have := stInv_initEpochState fakeTs env.startOffsets
      obtain ⟨h1, h2, h3, h4, h5⟩ := this
      exact ⟨h1, h2, h3, h4, h5⟩

lemma loopBody_fatal (cfg : TransactionalProducerConfig) (env : EpochEnv) (i : Nat)
    (st : EpochState) : (loopBody cfg env i st).1.fatal = st.fatal := by
  rw [loopBody]
  split
  · split
    · rfl
    · split
      · rfl
      · split
        · rfl
        · rfl
  · rfl

lemma loopBody_ackedUpTo (cfg : TransactionalProducerConfig) (env : EpochEnv) (i : Nat)
    (st : EpochState) : (loopBody cfg env i st).1.ackedUpTo = st.ackedUpTo := by
  rw [loopBody]
  split
  · split
    · rfl
    · split
      · rfl
      · split
        · rfl
        · rfl
  · rfl

lemma loopBody_ledger (cfg : TransactionalProducerConfig) (env : EpochEnv) (i : Nat)
    (st : EpochState) : (loopBody cfg env i st).1.ledger = st.ledger := by
  rw [loopBody]
  split
  · split
    · rfl
    · split
      · rfl
      · split
        · rfl
        · rfl
  · rfl

lemma loopBody_badQueue (cfg : TransactionalProducerConfig) (env : EpochEnv) (i : Nat)
    (st : EpochState) : (loopBody cfg env i st).1.badQueue = st.badQueue := by
  rw [loopBody]
  split
  · split
    · rfl
    · split
      · rfl
      · split
        · rfl
        · rfl
  · rfl

@[simp] lemma finalFlushStep_fatal (env : EpochEnv) (st : EpochState) :
    (finalFlushStep env st).fatal = st.fatal := by
  rw [finalFlushStep]; split <;> rfl

@[simp] lemma finalFlushStep_ackedUpTo (env : EpochEnv) (st : EpochState) :
    (finalFlushStep env st).ackedUpTo = st.ackedUpTo := by
  rw [finalFlushStep]; split <;> rfl

@[simp] lemma finalFlushStep_dispatched (env : EpochEnv) (st : EpochState) :
    (finalFlushStep env st).dispatched = st.dispatched := by
  rw [finalFlushStep]; split <;> rfl

@[simp] lemma finalFlushStep_sent (env : EpochEnv) (st : EpochState) :
    (finalFlushStep env st).sent = st.sent := by
  rw [finalFlushStep]; split <;> rfl

@[simp] lemma finalFlushStep_offsets (env : EpochEnv) (st : EpochState) :
    (finalFlushStep env st).offsets = st.offsets := by
  rw [finalFlushStep]; split <;> rfl

@[simp] lemma finalEndStep_fatal (env : EpochEnv) (st : EpochState) :
    (finalEndStep env st).fatal = st.fatal := by
  rw [finalEndStep]; split <;> rfl

@[simp] lemma finalEndStep_ackedUpTo (env : EpochEnv) (st : EpochState) :
    (finalEndStep env st).ackedUpTo = st.ackedUpTo := by
  rw [finalEndStep]; split <;> rfl

@[simp] lemma finalEndStep_dispatched (env : EpochEnv) (st : EpochState) :
    (finalEndStep env st).dispatched = st.dispatched := by
  rw [finalEndStep]; split <;> rfl

@[simp] lemma finalEndStep_sent (env : EpochEnv) (st : EpochState) :
    (finalEndStep env st).sent = st.sent := by
  rw [finalEndStep]; split <;> rfl

@[simp] lemma finalEndStep_offsets (env : EpochEnv) (st : EpochState) :
    (finalEndStep env st).offsets = st.offsets := by
  rw [finalEndStep]; split <;> rfl

lemma fatal_processOne (env : EpochEnv) (st : EpochState)
    (hA : ∀ j, env.ackFail j = false) (h : st.fatal = false) :
    (processOne env st).fatal = false := by
  cases hget : st.dispatched[st.ackedUpTo]? with
  | none => rw [processOne_eq_none env st hget]; exact h
  | some d =>
    rw [processOne_eq_deliver env st d hget (hA st.ackedUpTo)]
    show (handleAck st d (env.ackOffset st.ackedUpTo)).fatal = false
    rw [handleAck_fatal]
    exact h

lemma fatal_processK (env : EpochEnv) (hA : ∀ j, env.ackFail j = false) :
    ∀ (k : Nat) (st : EpochState), st.fatal = false → (processK env k st).fatal = false := by
  intro k
  induction k with
  | zero => intro st h; exact h
  | succ k ih =>
    intro st h
    rw [processK]
    split
    · exact h
    · exact ih _ (fatal_processOne env st hA h)

lemma fatal_processUpTo (env : EpochEnv) (st : EpochState) (t : Nat)
    (hA : ∀ j, env.ackFail j = false) (h : st.fatal = false) :
    (processUpTo env st t).fatal = false := fatal_processK env hA _ st h

lemma fatal_runLoop (cfg : TransactionalProducerConfig) (env : EpochEnv)
    (hA : ∀ j, env.ackFail j = false) :
    ∀ (rem i : Nat) (st : EpochState), st.fatal = false →
      (runLoop cfg env i rem st).fatal = false := by
  intro rem
  induction rem with
  | zero => intro i st h; exact h
  | succ rem ih =>
    intro i st h
    rw [runLoop]
    have h' := fatal_processUpTo env st (env.arrive i) hA h
    split
    · exact h'
    · split
      · split
        · rename_i st' hbody
          have := loopBody_fatal cfg env i (processUpTo env st (env.arrive i))
          rw [hbody] at this
          exact ih (i + 1) st' (this.trans h')
        · rename_i st' hbody
          have := loopBody_fatal cfg env i (processUpTo env st (env.arrive i))
          rw [hbody] at this
          exact this.trans h'
      · exact h'

lemma fatal_finalizedState (env : EpochEnv) (st : EpochState)
    (hA : ∀ j, env.ackFail j = false) (h : st.fatal = false) :
    (finalizedState env st).fatal = false := by
  rw [finalizedState]
  apply fatal_processUpTo env _ _ hA
  rw [finalEndStep_fatal, finalFlushStep_fatal]
  exact h

lemma processOne_ackedUpTo_advance (env : EpochEnv) (st : EpochState)
    (hA : ∀ j, env.ackFail j = false) (hlt : st.ackedUpTo < st.dispatched.length) :
    (processOne env st).ackedUpTo = st.ackedUpTo + 1 := by
  cases hget : st.dispatched[st.ackedUpTo]? with
  | none =>
    rw [List.getElem?_eq_getElem hlt] at hget
    exact Option.noConfusion hget
  | some d =>
    rw [processOne_eq_deliver env st d hget (hA st.ackedUpTo)]

lemma processK_progress (env : EpochEnv) (hA : ∀ j, env.ackFail j = false) :
    ∀ (k : Nat) (st : EpochState), st.fatal = false →
      st.ackedUpTo + k ≤ st.dispatched.length →
      (processK env k st).ackedUpTo = st.ackedUpTo + k := by
  intro k
  induction k with
  | zero => intro st h hk; rfl
  | succ k ih =>
    intro st h hk
    rw [processK]
    rw [if_neg (by rw [h]; exact Bool.false_ne_true)]
    have hone := processOne_ackedUpTo_advance env st hA (by omega)
    have hfat := fatal_processOne env st hA h
    have := ih (processOne env st) hfat (by
      rw [hone, processOne_dispatched]
      omega)
    rw [this, hone]
    omega

lemma processUpTo_full (env : EpochEnv) (st : EpochState)
    (hA : ∀ j, env.ackFail j = false) (h : st.fatal = false)
    (hle : st.ackedUpTo ≤ st.dispatched.length) :
    (processUpTo env st st.dispatched.length).ackedUpTo = st.dispatched.length := by
  rw [processUpTo]
  rw [processK_progress env hA _ st h (by omega)]
  omega

lemma finalizedState_complete (env : EpochEnv) (st : EpochState)
    (hA : ∀ j, env.ackFail j = false) (h : st.fatal = false)
    (hle : st.ackedUpTo ≤ st.dispatched.length) :
    (finalizedState env st).ackedUpTo = (finalizedState env st).dispatched.length := by
  rw [finalizedState]
  have h2 : (finalEndStep env (finalFlushStep env st)).dispatched = st.dispatched := by
    rw [finalEndStep_dispatched, finalFlushStep_dispatched]
  have h3 : (finalEndStep env (finalFlushStep env st)).ackedUpTo = st.ackedUpTo := by
    rw [finalEndStep_ackedUpTo, finalFlushStep_ackedUpTo]
  have h4 : (finalEndStep env (finalFlushStep env st)).fatal = false := by
    rw [finalEndStep_fatal, finalFlushStep_fatal]; exact h
  have hfull := processUpTo_full env (finalEndStep env (finalFlushStep env st)) hA h4
    (by rw [h3, h2]; exact hle)
  rw [hfull, processUpTo_dispatched]

lemma produceInner_eq_run (cfg : TransactionalProducerConfig) (env : EpochEnv)
    (fakeTs : Int) (n : Int) (h1 : env.clientOk = true) (h2 : env.beginOk 0 = true) :
    produceInner cfg env fakeTs n =
      finalize env (runLoop cfg env 0 n.toNat
        { initEpochState fakeTs env.startOffsets with
            offsets := beginControlAdvance env.startOffsets
            willAbort := env.roll 0, rollIdx := 1 }) := by
  rw [produceInner]
  rw [if_neg (by simp [h1]), if_neg (by simp [h2])]
  rfl

lemma sd_loopBody (cfg : TransactionalProducerConfig) (env : EpochEnv) (i : Nat)
    (st : EpochState) (hF : env.flushOk i = true) (hE : env.endOk i = true)
    (hB : env.beginOk i = true) :
    (loopBody cfg env i st).2 = true ∧
    (loopBody cfg env i st).1.sent = st.sent + 1 ∧
    (loopBody cfg env i st).1.dispatched.length = st.dispatched.length + 1 := by
  rw [loopBody]
  split
  · rw [if_neg (by simp [hF]), if_neg (by simp [hE]), if_neg (by simp [hB])]
    refine ⟨rfl, rfl, ?_⟩
    rw [dispatchRecord_dispatched, List.length_append]
    rfl
  · refine ⟨rfl, rfl, ?_⟩
    rw [dispatchRecord_dispatched, List.length_append]
    rfl

lemma sd_runLoop (cfg : TransactionalProducerConfig) (env : EpochEnv)
    (hFa : ∀ i, env.flushOk i = true) (hEa : ∀ i, env.endOk i = true)
    (hBa : ∀ i, env.beginOk i = true) :
    ∀ (rem i : Nat) (st : EpochState), st.sent = st.dispatched.length →
      (runLoop cfg env i rem st).sent = (runLoop cfg env i rem st).dispatched.length := by
  intro rem
  induction rem with
  | zero => intro i st h; exact h
  | succ rem ih =>
    intro i st h
    rw [runLoop]
    have h' : (processUpTo env st (env.arrive i)).sent =
        (processUpTo env st (env.arrive i)).dispatched.length := by
      rw [processUpTo_sent, processUpTo_dispatched]
      exact h
    split
    · exact h'
    · split
      · split
        · rename_i st' hbody
          obtain ⟨hc, hs, hd⟩ := sd_loopBody cfg env i (processUpTo env st (env.arrive i))
            (hFa i) (hEa i) (hBa i)
          rw [hbody] at hc hs hd
          exact ih (i + 1) st' (by rw [hs, hd, h'])
        · rename_i st' hbody
          obtain ⟨hc, hs, hd⟩ := sd_loopBody cfg env i (processUpTo env st (env.arrive i))
            (hFa i) (hEa i) (hBa i)
          rw [hbody] at hc
          exact Bool.noConfusion hc
      · exact h'

lemma finalize_sent_dispatched (env : EpochEnv) (st : EpochState)
    (h : st.sent = st.dispatched.length) :
    (finalize env st).1.sent = (finalize env st).1.dispatched.length := by
  rw [finalize_fst]
  split
  · exact h
  · rw [finalizedState, processUpTo_sent, processUpTo_dispatched,
      finalEndStep_sent, finalFlushStep_sent, finalEndStep_dispatched,
      finalFlushStep_dispatched]
    exact h

lemma finalize_eq_fatal (env : EpochEnv) (st : EpochState) (h : st.fatal = true) :
    finalize env st = (st, EpochOutcome.fatal) := by
  rw [finalize, if_pos h]

lemma finalize_of_errored (env : EpochEnv) (st : EpochState) (h : st.fatal = false)
    (hf : (finalizedState env st).fatal = false)
    (he : (finalizedState env st).errored = true) :
    finalize env st = (finalizedState env st,
      EpochOutcome.ok (((finalizedState env st).produced : Int) -
        ((finalizedState env st).badQueue.length : Int)) (finalizedState env st).badQueue) := by
  rw [finalize, if_neg (by simp [h])]
  dsimp only
  rw [if_neg (by simp [hf]), if_pos he]

lemma finalize_of_clean (env : EpochEnv) (st : EpochState) (h : st.fatal = false)
    (hf : (finalizedState env st).fatal = false)
    (he : (finalizedState env st).errored = false) :
    finalize env st = (finalizedState env st,
      EpochOutcome.ok ((finalizedState env st).produced : Int) []) := by
  rw [finalize, if_neg (by simp [h])]
  dsimp only
  rw [if_neg (by simp [hf]), if_neg (by simp [he])]

lemma runLoop_stop (cfg : TransactionalProducerConfig) (env : EpochEnv) (i rem : Nat)
    (st : EpochState) (h : (processUpTo env st (env.arrive i)).badQueue ≠ []) :
    runLoop cfg env i (rem + 1) st = processUpTo env st (env.arrive i) := by
  rw [runLoop]
  split
  · rfl
  · rw [if_neg (fun hc => h (List.length_eq_zero.mp hc))]

lemma waitGo_fatal (cfg : TransactionalProducerConfig) (envs : Nat → EpochEnv)
    (fuel k : Nat) (fakeTs n : Int) (restarts : Nat)
    (h : (produceInner cfg (envs k) fakeTs n).2 = EpochOutcome.fatal) :
    waitGo cfg envs (fuel + 1) k fakeTs n restarts = some (false, restarts, 1) := by
  rw [waitGo]
  rw [h]

lemma waitGo_done (cfg : TransactionalProducerConfig) (envs : Nat → EpochEnv)
    (fuel k : Nat) (fakeTs n : Int) (restarts : Nat) (s : Int) (bad : List BadOffset)
    (h : (produceInner cfg (envs k) fakeTs n).2 = EpochOutcome.ok s bad)
    (hle : n - s ≤ 0) :
    waitGo cfg envs (fuel + 1) k fakeTs n restarts = some (true, restarts, 1) := by
  rw [waitGo]
  rw [h]
  dsimp only
  rw [if_pos hle]

lemma waitGo_continue (cfg : TransactionalProducerConfig) (envs : Nat → EpochEnv)
    (fuel k : Nat) (fakeTs n : Int) (restarts : Nat) (s : Int) (bad : List BadOffset)
    (h : (produceInner cfg (envs k) fakeTs n).2 = EpochOutcome.ok s bad)
    (hgt : 0 < n - s) :
    waitGo cfg envs (fuel + 1) k fakeTs n restarts =
      match waitGo cfg envs fuel (k + 1) (produceInner cfg (envs k) fakeTs n).1.fakeTimestampMs
          (n - s) (restarts + 1) with
      | some (b, r, e) => some (b, r, e + 1)
      | none => none := by
  rw [waitGo]
  rw [h]
  dsimp only
  rw [if_neg (by omega)]

lemma waitGo_restart_law (cfg : TransactionalProducerConfig) (envs : Nat → EpochEnv) :
    ∀ (fuel k : Nat) (fakeTs n : Int) (restarts : Nat) (b : Bool) (r e : Nat),
      waitGo cfg envs fuel k fakeTs n restarts = some (b, r, e) →
      r = restarts + (e - 1) ∧ 1 ≤ e := by
  intro fuel
  induction fuel with
  | zero =>
    intro k fakeTs n restarts b r e h
    exact Option.noConfusion h
  | succ fuel ih =>
    intro k fakeTs n restarts b r e h
    rw [waitGo] at h
    cases hout : (produceInner cfg (envs k) fakeTs n).2 with
    | ok s bad =>
      rw [hout] at h
      dsimp only at h
      by_cases hle : n - s ≤ 0
      · rw [if_pos hle] at h
        simp only [Option.some.injEq, Prod.mk.injEq] at h
        omega
      · rw [if_neg hle] at h
        cases hw : waitGo cfg envs fuel (k + 1)
            (produceInner cfg (envs k) fakeTs n).1.fakeTimestampMs (n - s) (restarts + 1) with
        | none => rw [hw] at h; exact Option.noConfusion h
        | some x =>
          obtain ⟨b', r', e'⟩ := x
          rw [hw] at h
          simp only [Option.some.injEq, Prod.mk.injEq] at h
          obtain ⟨hb, hr, he⟩ := h
          obtain ⟨ihr, ihe⟩ := ih (k + 1) _ (n - s) (restarts + 1) b' r' e' hw
          omega
    | fatal =>
      rw [hout] at h
      dsimp only at h
      simp only [Option.some.injEq, Prod.mk.injEq] at h
      omega


lemma stInv_startState (env : EpochEnv) (fakeTs : Int) :
    StInv { initEpochState fakeTs env.startOffsets with
      offsets := beginControlAdvance env.startOffsets
      willAbort := env.roll 0, rollIdx := 1 } := by
  refine ⟨?_, ?_, ?_, ?_, ?_⟩ <;> simp [initEpochState]

lemma newRecord_fst (messageSize : Nat) (fakeTimestampMs : Int) (producerId : Int)
    (sequence : Int) (aborted : Bool) :
    (newRecord messageSize fakeTimestampMs producerId sequence aborted).1 =
      { key := recordKey producerId sequence aborted
        payloadLen := messageSize
        timestampNs := if fakeTimestampMs ≠ -1 then some (fakeTimestampMs * 1000000) else none
        partition := 0 } := by
  rw [newRecord]
  split <;> rfl

lemma finalize_fst_of_not_fatal (env : EpochEnv) (st : EpochState) (h : st.fatal = false) :
    (finalize env st).1 = finalizedState env st := by
  rw [finalize_fst, if_neg (by simp [h])]

/-- C1: for every epoch, the per-partition expected-offset cursor advances as
prescribed: after the initial successful begin-transaction every partition's
cursor is up by exactly 1; at a later batch boundary every partition's cursor
is up by exactly 2 when the just-ended transaction committed and by exactly 1
when it aborted; and dispatching one record moves only the chosen partition's
cursor, by exactly 1. -/
theorem c1_cursor_advance :
    (∀ (offs : List Int) (j : Nat), j < offs.length →
      (beginControlAdvance offs).getD j 0 = offs.getD j 0 + 1) ∧
    (∀ (offs : List Int) (j : Nat), j < offs.length →
      (boundaryControlAdvance false offs).getD j 0 = offs.getD j 0 + 2) ∧
    (∀ (offs : List Int) (j : Nat), j < offs.length →
      (boundaryControlAdvance true offs).getD j 0 = offs.getD j 0 + 1) ∧
    (∀ (cfg : TransactionalProducerConfig) (p : Nat) (st : EpochState),
      p < st.offsets.length →
      (dispatchRecord cfg p st).1.offsets.getD p 0 = st.offsets.getD p 0 + 1 ∧
      ∀ j : Nat, j ≠ p → (dispatchRecord cfg p st).1.offsets.getD j 0 = st.offsets.getD j 0) ∧
    (∀ (cfg : TransactionalProducerConfig) (env : EpochEnv) (fakeTs n : Int),
      env.clientOk = true → env.beginOk 0 = true → n ≤ 0 →
      (produceInner cfg env fakeTs n).1.offsets = beginControlAdvance env.startOffsets) := by
  refine ⟨?_, ?_, ?_, ?_, ?_⟩
  · intro offs j h
    rw [beginControlAdvance]
    exact getD_map_add _ offs j h
  · intro offs j h
    rw [boundaryControlAdvance]
    have := getD_map_add (fun o => if (false : Bool) then o + 1 else o + 2) offs j h
    simpa using this
  · intro offs j h
    rw [boundaryControlAdvance]
    have := getD_map_add (fun o => if (true : Bool) then o + 1 else o + 2) offs j h
    simpa using this
  · intro cfg p st h
    constructor
    · rw [dispatchRecord_offsets, recordAdvance]
      exact getD_set_self st.offsets p _ h
    · intro j hj
      rw [dispatchRecord_offsets, recordAdvance]
      exact getD_set_ne st.offsets p j _ hj
  · intro cfg env fakeTs n h1 h2 hn
    rw [produceInner_eq_run cfg env fakeTs n h1 h2, Int.toNat_of_nonpos hn]
    have hrl : ∀ st : EpochState, runLoop cfg env 0 0 st = st := fun st => rfl
    rw [hrl]
    rw [finalize_fst_of_not_fatal env _ rfl]
    rw [finalizedState, processUpTo_offsets, finalEndStep_offsets, finalFlushStep_offsets]

/-- Witness for `c1_cursor_advance` at concrete inputs. -/
theorem c1_cursor_advance_witness :
    (beginControlAdvance [5, 7]).getD 0 0 = 5 + 1 ∧
    (boundaryControlAdvance false [5, 7]).getD 1 0 = 7 + 2 ∧
    (boundaryControlAdvance true [5, 7]).getD 1 0 = 7 + 1 ∧
    (dispatchRecord cfgOnePart 0 (initEpochState (-1) [4, 9])).1.offsets.getD 0 0 = 4 + 1 ∧
    (dispatchRecord cfgOnePart 0 (initEpochState (-1) [4, 9])).1.offsets.getD 1 0 = 9 ∧
    (produceInner cfgOnePart envClean (-1) 0).1.offsets = beginControlAdvance [0] := by
  refine ⟨c1_cursor_advance.1 [5, 7] 0 (by decide),
    c1_cursor_advance.2.1 [5, 7] 1 (by decide),
    c1_cursor_advance.2.2.1 [5, 7] 1 (by decide),
    (c1_cursor_advance.2.2.2.1 cfgOnePart 0 (initEpochState (-1) [4, 9]) (by decide)).1,
    (c1_cursor_advance.2.2.2.1 cfgOnePart 0 (initEpochState (-1) [4, 9]) (by decide)).2 1
      (by decide),
    c1_cursor_advance.2.2.2.2 cfgOnePart envClean (-1) 0 rfl rfl (by decide)⟩

/-- C2: a completion callback with a matching offset increments the acked
counter, records a latency sample and inserts exactly the (partition,
predicted offset) pair into the offset ledger; a mismatch increments the
bad-offset counter, records a `BadOffset`, marks the epoch errored, and
performs no ledger insert — hence every offset in the final ledger equals
the offset predicted for that message at send time. -/
theorem c2_ack_callback :
    (∀ (st : EpochState) (d : Dispatch) (off : Int), off ≠ d.predicted →
      handleAck st d off =
        { st with badOffsetsCtr := st.badOffsetsCtr + 1
                  badQueue := st.badQueue ++ [⟨d.partition, off⟩]
                  errored := true }) ∧
    (∀ (st : EpochState) (d : Dispatch) (off : Int), off = d.predicted →
      handleAck st d off =
        { st with acked := st.acked + 1
                  latencyObs := st.latencyObs + 1
                  ledger := st.ledger ++ [(d.partition, d.predicted)] }) ∧
    (∀ (cfg : TransactionalProducerConfig) (env : EpochEnv) (fakeTs n : Int),
      ∀ pr ∈ (produceInner cfg env fakeTs n).1.ledger,
        ∃ d ∈ (produceInner cfg env fakeTs n).1.dispatched,
          d.partition = pr.1 ∧ d.predicted = pr.2) := by
  refine ⟨?_, ?_, ?_⟩
  · intro st d off h
    exact handleAck_eq_bad st d off h
  · intro st d off h
    subst h
    exact handleAck_eq_ok st d _ rfl
  · intro cfg env fakeTs n
    exact (stInv_produceInner cfg env fakeTs n).2.2.2.2

/-- Witness for `c2_ack_callback` at concrete inputs. -/
theorem c2_ack_callback_witness :
    handleAck (initEpochState (-1) [0]) dispatchEx 99 =
      { initEpochState (-1) [0] with
          badOffsetsCtr := 1
          badQueue := [⟨0, 99⟩]
          errored := true } ∧
    handleAck (initEpochState (-1) [0]) dispatchEx 1 =
      { initEpochState (-1) [0] with acked := 1, latencyObs := 1, ledger := [(0, 1)] } ∧
    ∃ d ∈ (produceInner cfgOnePart envClean (-1) 2).1.dispatched,
      d.partition = (0 : Nat) ∧ d.predicted = (1 : Int) := by
  refine ⟨?_, ?_, ?_⟩
  · exact c2_ack_callback.1 (initEpochState (-1) [0]) dispatchEx 99 (by decide)
  · exact c2_ack_callback.2.1 (initEpochState (-1) [0]) dispatchEx 1 (by decide)
  · exact c2_ack_callback.2.2 cfgOnePart envClean (-1) 2 (0, 1) (by decide)

/-- C3: once the bad-offset channel is non-empty at a message boundary the
dispatch loop stops without building another record (the already-arrived
callbacks are the only state change), callback processing never dispatches
records, and in an epoch without delivery failures every dispatched message's
callback still runs to completion. -/
theorem c3_early_termination :
    (∀ (cfg : TransactionalProducerConfig) (env : EpochEnv) (i rem : Nat) (st : EpochState),
      (processUpTo env st (env.arrive i)).badQueue ≠ [] →
      runLoop cfg env i (rem + 1) st = processUpTo env st (env.arrive i)) ∧
    (∀ (env : EpochEnv) (st : EpochState) (t : Nat),
      (processUpTo env st t).dispatched = st.dispatched) ∧
    (∀ (cfg : TransactionalProducerConfig) (env : EpochEnv) (fakeTs n : Int),
      env.clientOk = true → env.beginOk 0 = true → (∀ j, env.ackFail j = false) →
      (produceInner cfg env fakeTs n).1.ackedUpTo =
        (produceInner cfg env fakeTs n).1.dispatched.length) := by
  refine ⟨?_, ?_, ?_⟩
  · intro cfg env i rem st h
    exact runLoop_stop cfg env i rem st h
  · intro env st t
    exact processUpTo_dispatched env st t
  · intro cfg env fakeTs n h1 h2 hA
    rw [produceInner_eq_run cfg env fakeTs n h1 h2]
    set st1 : EpochState := { initEpochState fakeTs env.startOffsets with
      offsets := beginControlAdvance env.startOffsets
      willAbort := env.roll 0, rollIdx := 1 } with hst1
    set stL := runLoop cfg env 0 n.toNat st1 with hstL
    have hinv : StInv stL := stInv_runLoop cfg env _ _ _ (stInv_startState env fakeTs)
    have hfatal : stL.fatal = false := fatal_runLoop cfg env hA _ _ _ rfl
    rw [finalize_fst_of_not_fatal env stL hfatal]
    exact finalizedState_complete env stL hA hfatal hinv.2.1

/-- Witness for `c3_early_termination` at concrete inputs. -/
theorem c3_early_termination_witness :
    runLoop cfgOnePart envClean 0 1 stWithBad = stWithBad ∧
    (processUpTo envClean stWithBad 0).dispatched = stWithBad.dispatched ∧
    (produceInner cfgOnePart envClean (-1) 2).1.ackedUpTo =
      (produceInner cfgOnePart envClean (-1) 2).1.dispatched.length := by
  refine ⟨?_, ?_, ?_⟩
  · exact c3_early_termination.1 cfgOnePart envClean 0 0 stWithBad (by decide)
  · exact c3_early_termination.2.1 envClean stWithBad 0
  · exact c3_early_termination.2.2 cfgOnePart envClean (-1) 2 rfl rfl (fun j => rfl)

/-- C4: in an epoch whose client and initial begin succeeded and with no
delivery failure, if at least one bad offset was recorded the epoch returns
the produced count minus the number of bad offsets together with the
non-empty bad-offset list and no error, and if nothing errored it returns
the full produced count with an empty list and no error. -/
theorem c4_epoch_return :
    ∀ (cfg : TransactionalProducerConfig) (env : EpochEnv) (fakeTs n : Int),
      env.clientOk = true → env.beginOk 0 = true → (∀ j, env.ackFail j = false) →
      ((produceInner cfg env fakeTs n).1.badQueue ≠ [] →
        (produceInner cfg env fakeTs n).2 =
          EpochOutcome.ok
            (((produceInner cfg env fakeTs n).1.produced : Int) -
              ((produceInner cfg env fakeTs n).1.badQueue.length : Int))
            (produceInner cfg env fakeTs n).1.badQueue) ∧
      ((produceInner cfg env fakeTs n).1.errored = false →
        (produceInner cfg env fakeTs n).2 =
          EpochOutcome.ok ((produceInner cfg env fakeTs n).1.produced : Int) []) := by
  intro cfg env fakeTs n h1 h2 hA
  rw [produceInner_eq_run cfg env fakeTs n h1 h2]
  set st1 : EpochState := { initEpochState fakeTs env.startOffsets with
    offsets := beginControlAdvance env.startOffsets
    willAbort := env.roll 0, rollIdx := 1 } with hst1
  set stL := runLoop cfg env 0 n.toNat st1 with hstL
  have hfatal : stL.fatal = false := fatal_runLoop cfg env hA _ _ _ rfl
  have hfs : (finalizedState env stL).fatal = false :=
    fatal_finalizedState env stL hA hfatal
  have hfst : (finalize env stL).1 = finalizedState env stL :=
    finalize_fst_of_not_fatal env stL hfatal
  have hinv : StInv (finalizedState env stL) :=
    stInv_finalizedState env stL (stInv_runLoop cfg env _ _ _ (stInv_startState env fakeTs))
  constructor
  · intro hbq
    rw [hfst] at hbq
    have herr : (finalizedState env stL).errored = true := by
      cases he : (finalizedState env stL).errored
      · exact absurd (hinv.2.2.2.1 he) hbq
      · rfl
    rw [finalize_of_errored env stL hfatal hfs herr]
  · intro herr
    rw [hfst] at herr
    rw [finalize_of_clean env stL hfatal hfs herr]

/-- Witness for `c4_epoch_return` at concrete inputs. -/
theorem c4_epoch_return_witness :
    (produceInner cfgOnePart envBadAck (-1) 2).2 = EpochOutcome.ok 0 [⟨0, 99⟩] ∧
    (produceInner cfgOnePart envClean (-1) 2).2 = EpochOutcome.ok 2 [] := by
  constructor
  · have h := (c4_epoch_return cfgOnePart envBadAck (-1) 2 rfl rfl (fun j => rfl)).1
      (by decide)
    exact h.trans (by decide)
  · have h := (c4_epoch_return cfgOnePart envClean (-1) 2 rfl rfl (fun j => rfl)).2
      (by decide)
    exact h.trans (by decide)

/-- C5: the retry loop of `Wait` starts from the configured message count,
returns the error immediately when an epoch is fatal, returns success exactly
when the remainder after subtracting the epoch's successful count is at most
zero, otherwise re-invokes the epoch runner on the still-remaining count with
the restart counter incremented, and on any terminating run the final restart
counter exceeds the starting one by exactly the number of epochs after the
first. -/
theorem c5_wait_orchestration :
    (∀ (cfg : TransactionalProducerConfig) (envs : Nat → EpochEnv) (fuel : Nat),
      Wait cfg envs fuel = waitGo cfg envs fuel 0 cfg.fakeTimestampMs cfg.messageCount 0) ∧
    (∀ (cfg : TransactionalProducerConfig) (envs : Nat → EpochEnv) (fuel k : Nat)
      (fakeTs n : Int) (restarts : Nat),
      (produceInner cfg (envs k) fakeTs n).2 = EpochOutcome.fatal →
      waitGo cfg envs (fuel + 1) k fakeTs n restarts = some (false, restarts, 1)) ∧
    (∀ (cfg : TransactionalProducerConfig) (envs : Nat → EpochEnv) (fuel k : Nat)
      (fakeTs n : Int) (restarts : Nat) (s : Int) (bad : List BadOffset),
      (produceInner cfg (envs k) fakeTs n).2 = EpochOutcome.ok s bad → n - s ≤ 0 →
      waitGo cfg envs (fuel + 1) k fakeTs n restarts = some (true, restarts, 1)) ∧
    (∀ (cfg : TransactionalProducerConfig) (envs : Nat → EpochEnv) (fuel k : Nat)
      (fakeTs n : Int) (restarts : Nat) (s : Int) (bad : List BadOffset),
      (produceInner cfg (envs k) fakeTs n).2 = EpochOutcome.ok s bad → 0 < n - s →
      waitGo cfg envs (fuel + 1) k fakeTs n restarts =
        match waitGo cfg envs fuel (k + 1)
            (produceInner cfg (envs k) fakeTs n).1.fakeTimestampMs (n - s) (restarts + 1) with
        | some (b, r, e) => some (b, r, e + 1)
        | none => none) ∧
    (∀ (cfg : TransactionalProducerConfig) (envs : Nat → EpochEnv) (fuel k : Nat)
      (fakeTs n : Int) (restarts : Nat) (b : Bool) (r e : Nat),
      waitGo cfg envs fuel k fakeTs n restarts = some (b, r, e) →
      r = restarts + (e - 1) ∧ 1 ≤ e) := by
  refine ⟨fun cfg envs fuel => rfl, ?_, ?_, ?_, ?_⟩
  · intro cfg envs fuel k fakeTs n restarts h
    exact waitGo_fatal cfg envs fuel k fakeTs n restarts h
  · intro cfg envs fuel k fakeTs n restarts s bad h hle
    exact waitGo_done cfg envs fuel k fakeTs n restarts s bad h hle
  · intro cfg envs fuel k fakeTs n restarts s bad h hgt
    exact waitGo_continue cfg envs fuel k fakeTs n restarts s bad h hgt
  · intro cfg envs fuel k fakeTs n restarts b r e h
    exact waitGo_restart_law cfg envs fuel k fakeTs n restarts b r e h

/-- Witness for `c5_wait_orchestration` at concrete inputs. -/
theorem c5_wait_orchestration_witness :
    waitGo cfgOnePart (fun _ => envBeginFail) 2 0 (-1) 2 0 = some (false, 0, 1) ∧
    waitGo cfgOnePart envSeq 3 1 (-1) 2 1 = some (true, 1, 1) ∧
    Wait cfgOnePart envSeq 3 = some (true, 1, 2) ∧
    (1 = 0 + (2 - 1) ∧ 1 ≤ 2) := by
  refine ⟨?_, ?_, ?_, ?_⟩
  · exact c5_wait_orchestration.2.1 cfgOnePart (fun _ => envBeginFail) 1 0 (-1) 2 0 (by decide)
  · exact c5_wait_orchestration.2.2.1 cfgOnePart envSeq 2 1 (-1) 2 1 2 [] (by decide) (by decide)
  · have h0 := c5_wait_orchestration.1 cfgOnePart envSeq 3
    have h1 := c5_wait_orchestration.2.2.2.1 cfgOnePart envSeq 2 0 (-1) 2 0 0 [⟨0, 99⟩]
      (by decide) (by decide)
    exact h0.trans (h1.trans (by decide))
  · exact c5_wait_orchestration.2.2.2.2 cfgOnePart envSeq 3 0 (-1) 2 0 true 1 2 (by decide)

/-- C6: a client-construction failure makes `produceInner` return a fatal
error at once; a delivery-level failure reported on acknowledgement marks the
run fatal, a fatal run finalizes to the fatal outcome, and the retry loop
returns a fatal epoch's error to its caller immediately, with no further
epoch. -/
theorem c6_fatal_propagation :
    (∀ (cfg : TransactionalProducerConfig) (env : EpochEnv) (fakeTs n : Int),
      env.clientOk = false →
      produceInner cfg env fakeTs n = (initEpochState fakeTs [], EpochOutcome.fatal)) ∧
    (∀ (env : EpochEnv) (st : EpochState) (d : Dispatch),
      st.dispatched[st.ackedUpTo]? = some d → env.ackFail st.ackedUpTo = true →
      processOne env st = { st with fatal := true, ackedUpTo := st.ackedUpTo + 1 }) ∧
    (∀ (env : EpochEnv) (st : EpochState), st.fatal = true →
      finalize env st = (st, EpochOutcome.fatal)) ∧
    (∀ (cfg : TransactionalProducerConfig) (envs : Nat → EpochEnv) (fuel k : Nat)
      (fakeTs n : Int) (restarts : Nat),
      (produceInner cfg (envs k) fakeTs n).2 = EpochOutcome.fatal →
      waitGo cfg envs (fuel + 1) k fakeTs n restarts = some (false, restarts, 1)) := by
  refine ⟨?_, ?_, ?_, ?_⟩
  · intro cfg env fakeTs n h
    rw [produceInner, if_pos (by simp [h])]
  · intro env st d hget hf
    exact processOne_eq_fail env st d hget hf
  · intro env st h
    exact finalize_eq_fatal env st h
  · intro cfg envs fuel k fakeTs n restarts h
    exact waitGo_fatal cfg envs fuel k fakeTs n restarts h

/-- Witness for `c6_fatal_propagation` at concrete inputs. -/
theorem c6_fatal_propagation_witness :
    produceInner cfgOnePart envNoClient (-1) 2 = (initEpochState (-1) [], EpochOutcome.fatal) ∧
    processOne envAckFail stDispatchedOne =
      { stDispatchedOne with fatal := true, ackedUpTo := 1 } ∧
    finalize envClean stFatal = (stFatal, EpochOutcome.fatal) ∧
    waitGo cfgOnePart (fun _ => envNoClient) 1 0 (-1) 2 0 = some (false, 0, 1) := by
  refine ⟨?_, ?_, ?_, ?_⟩
  · exact c6_fatal_propagation.1 cfgOnePart envNoClient (-1) 2 rfl
  · exact c6_fatal_propagation.2.1 envAckFail stDispatchedOne dispatchEx rfl rfl
  · exact c6_fatal_propagation.2.2.1 envClean stFatal rfl
  · exact c6_fatal_propagation.2.2.2 cfgOnePart (fun _ => envNoClient) 0 0 (-1) 2 0 rfl

/-- C7 counterexample: the epoch-initial `BeginTransaction` failure is a
transaction-boundary error that `produceInner` does return as a fatal error
(after counting it), contradicting the claim that boundary errors are never
returned as fatal errors to `Wait`. -/
theorem c7_counterexample :
    (produceInner cfgBatchTwo envBeginFail (-1) 3).2 = EpochOutcome.fatal ∧
    (produceInner cfgBatchTwo envBeginFail (-1) 3).1.failedTransactions = 1 ∧
    (produceInner cfgBatchTwo envBeginFail (-1) 3).1.errored = false := by
  refine ⟨rfl, rfl, rfl⟩

/-- C7 amended: with the client and the epoch-initial begin succeeding and no
delivery failure, `produceInner` never returns a fatal error — every
mid-epoch flush, end-transaction or begin-transaction failure at a batch
boundary counts one failed transaction, marks the epoch errored and breaks
the dispatch loop into finalization instead. -/
theorem c7_boundary_errors_amended :
    ∀ (cfg : TransactionalProducerConfig) (env : EpochEnv) (fakeTs n : Int),
      env.clientOk = true → env.beginOk 0 = true → (∀ j, env.ackFail j = false) →
      (produceInner cfg env fakeTs n).2 ≠ EpochOutcome.fatal ∧
      (∀ (i : Nat) (st : EpochState), 0 < i → i % cfg.msgsPerTransaction = 0 →
        env.flushOk i = false →
        loopBody cfg env i st =
          ({ st with
              produced := st.produced + 1
              sent := st.sent + 1
              errored := true
              failedTransactions := st.failedTransactions + 1 }, false)) ∧
      (∀ (i : Nat) (st : EpochState), 0 < i → i % cfg.msgsPerTransaction = 0 →
        env.flushOk i = true → env.endOk i = false →
        loopBody cfg env i st =
          ({ st with
              produced := st.produced + 1
              sent := st.sent + 1
              errored := true
              failedTransactions := st.failedTransactions + 1 }, false)) ∧
      (∀ (i : Nat) (st : EpochState), 0 < i → i % cfg.msgsPerTransaction = 0 →
        env.flushOk i = true → env.endOk i = true → env.beginOk i = false →
        loopBody cfg env i st =
          ({ st with
              produced := st.produced + 1
              sent := st.sent + 1
              errored := true
              failedTransactions := st.failedTransactions + 1 }, false)) := by
  intro cfg env fakeTs n h1 h2 hA
  refine ⟨?_, ?_, ?_, ?_⟩
  · rw [produceInner_eq_run cfg env fakeTs n h1 h2]
    set st1 : EpochState := { initEpochState fakeTs env.startOffsets with
      offsets := beginControlAdvance env.startOffsets
      willAbort := env.roll 0, rollIdx := 1 } with hst1
    set stL := runLoop cfg env 0 n.toNat st1 with hstL
    have hfatal : stL.fatal = false := fatal_runLoop cfg env hA _ _ _ rfl
    have hfs : (finalizedState env stL).fatal = false :=
      fatal_finalizedState env stL hA hfatal
    cases herr : (finalizedState env stL).errored
    · rw [finalize_of_clean env stL hfatal hfs herr]
      intro hcon
      exact EpochOutcome.noConfusion hcon
    · rw [finalize_of_errored env stL hfatal hfs herr]
      intro hcon
      exact EpochOutcome.noConfusion hcon
  · intro i st hi him hF
    rw [loopBody, if_pos ⟨hi, him⟩, if_pos (by simp [hF])]
  · intro i st hi him hF hE
    rw [loopBody, if_pos ⟨hi, him⟩, if_neg (by simp [hF]), if_pos (by simp [hE])]
  · intro i st hi him hF hE hB
    rw [loopBody, if_pos ⟨hi, him⟩, if_neg (by simp [hF]), if_neg (by simp [hE]),
      if_pos (by simp [hB])]

/-- Witness for `c7_boundary_errors_amended` at concrete inputs. -/
theorem c7_boundary_errors_amended_witness :
    (produceInner cfgBatchTwo envFlushFail (-1) 3).2 ≠ EpochOutcome.fatal ∧
    loopBody cfgBatchTwo envFlushFail 2 (initEpochState (-1) [0]) =
      ({ initEpochState (-1) [0] with
          produced := 1
          sent := 1
          errored := true
          failedTransactions := 1 }, false) ∧
    loopBody cfgBatchTwo envEndFail 2 (initEpochState (-1) [0]) =
      ({ initEpochState (-1) [0] with
          produced := 1
          sent := 1
          errored := true
          failedTransactions := 1 }, false) ∧
    loopBody cfgBatchTwo envBoundaryBeginFail 2 (initEpochState (-1) [0]) =
      ({ initEpochState (-1) [0] with
          produced := 1
          sent := 1
          errored := true
          failedTransactions := 1 }, false) := by
  refine ⟨(c7_boundary_errors_amended cfgBatchTwo envFlushFail (-1) 3 rfl rfl (fun j => rfl)).1,
    (c7_boundary_errors_amended cfgBatchTwo envFlushFail (-1) 3 rfl rfl (fun j => rfl)).2.1 2
      (initEpochState (-1) [0]) (by decide) (by decide) (by decide),
    (c7_boundary_errors_amended cfgBatchTwo envEndFail (-1) 3 rfl rfl (fun j => rfl)).2.2.1 2
      (initEpochState (-1) [0]) (by decide) (by decide) (by decide) (by decide),
    (c7_boundary_errors_amended cfgBatchTwo envBoundaryBeginFail (-1) 3 rfl rfl
      (fun j => rfl)).2.2.2 2 (initEpochState (-1) [0]) (by decide) (by decide) (by decide)
      (by decide) (by decide)⟩

/-- C8: a record of a transaction predetermined to abort always carries the
sentinel prefix `"ABORTED MSG: "` on its key, whatever the message size,
timestamp setting, producer id or sequence; the key never depends on message
size or timestamp at all; and otherwise the key is exactly the zero-padded
6-digit producer id, a dot, and the zero-padded 18-digit decimal rendering of
the predicted offset. -/
theorem c8_record_key :
    (∀ (msz : Nat) (fakeTs pid seq : Int),
      (newRecord msz fakeTs pid seq true).1.key =
        "ABORTED MSG: " ++ (goFmtInt 6 pid ++ "." ++ goFmtInt 18 seq)) ∧
    (∀ (msz : Nat) (fakeTs pid seq : Int) (ab : Bool),
      (newRecord msz fakeTs pid seq ab).1.key = recordKey pid seq ab) ∧
    (∀ (msz : Nat) (fakeTs pid seq : Int),
      0 ≤ pid → pid < 1000000 → 0 ≤ seq → seq < 1000000000000000000 →
      (newRecord msz fakeTs pid seq false).1.key =
        goFmtInt 6 pid ++ "." ++ goFmtInt 18 seq ∧
      (goFmtInt 6 pid).length = 6 ∧ (goFmtInt 18 seq).length = 18 ∧
      (goFmtInt 18 seq).data = digitsToChars (zeroPadLeft 18 (natDigitsN seq.toNat)) ∧
      decodeDigitsN (zeroPadLeft 18 (natDigitsN seq.toNat)) = seq.toNat) := by
  refine ⟨?_, ?_, ?_⟩
  · intro msz fakeTs pid seq
    rw [newRecord_fst]
    show recordKey pid seq true = _
    rw [recordKey]
    simp
  · intro msz fakeTs pid seq ab
    rw [newRecord_fst]
  · intro msz fakeTs pid seq hp0 hp hs0 hs
    have hp10 : pid.toNat < 10 ^ 6 := by
      have : (10 : Nat) ^ 6 = 1000000 := by norm_num
      omega
    have hs10 : seq.toNat < 10 ^ 18 := by
      have : (10 : Nat) ^ 18 = 1000000000000000000 := by norm_num
      omega
    refine ⟨?_, ?_, ?_, ?_, ?_⟩
    · rw [newRecord_fst]
      show recordKey pid seq false = _
      rw [recordKey]
      simp
    · exact goFmtInt_length_of_bounds hp0 (by norm_num) hp10
    · exact goFmtInt_length_of_bounds hs0 (by norm_num) hs10
    · rw [goFmtInt, if_neg (by omega)]
    · rw [decode_zeroPadLeft]
      exact decode_natDigitsN seq.toNat

/-- Witness for `c8_record_key` at concrete inputs. -/
theorem c8_record_key_witness :
    (newRecord 0 (-1) 0 5 true).1.key =
      "ABORTED MSG: " ++ (goFmtInt 6 0 ++ "." ++ goFmtInt 18 5) ∧
    (newRecord 128 77 0 5 false).1.key = recordKey 0 5 false ∧
    (newRecord 0 (-1) 0 5 false).1.key = goFmtInt 6 0 ++ "." ++ goFmtInt 18 5 ∧
    (goFmtInt 6 0).length = 6 ∧ (goFmtInt 18 5).length = 18 := by
  have h3 := c8_record_key.2.2 0 (-1) 0 5 (by decide) (by decide) (by decide) (by decide)
  exact ⟨c8_record_key.1 0 (-1) 0 5, c8_record_key.2.1 128 77 0 5 false, h3.1, h3.2.1,
    h3.2.2.1⟩

/-- C9 counterexample: when the boundary flush of iteration 2 fails, the
epoch's `Sent` counter ends at 3 while only 2 records were dispatched to the
client, refuting "Sent equals the number of records actually dispatched". -/
theorem c9_counterexample :
    (produceInner cfgBatchTwo envFlushFail (-1) 3).1.sent = 3 ∧
    (produceInner cfgBatchTwo envFlushFail (-1) 3).1.dispatched.length = 2 ∧
    (produceInner cfgBatchTwo envFlushFail (-1) 3).1.failedTransactions = 1 := by
  refine ⟨by decide, by decide, by decide⟩

/-- C9 amended: `Acked + BadOffsets ≤ Sent` always holds for an epoch, the
dispatched record count never exceeds `Sent`, and `Sent` equals the number of
records dispatched whenever no transaction-boundary operation fails
mid-epoch; an iteration whose boundary flush/end/begin fails increments
`Sent` without dispatching a record. -/
theorem c9_counters_amended :
    (∀ (cfg : TransactionalProducerConfig) (env : EpochEnv) (fakeTs n : Int),
      (produceInner cfg env fakeTs n).1.acked +
          (produceInner cfg env fakeTs n).1.badOffsetsCtr ≤
        (produceInner cfg env fakeTs n).1.sent ∧
      (produceInner cfg env fakeTs n).1.dispatched.length ≤
        (produceInner cfg env fakeTs n).1.sent) ∧
    (∀ (cfg : TransactionalProducerConfig) (env : EpochEnv) (fakeTs n : Int),
      (∀ i, env.flushOk i = true) → (∀ i, env.endOk i = true) → (∀ i, env.beginOk i = true) →
      (produceInner cfg env fakeTs n).1.sent =
        (produceInner cfg env fakeTs n).1.dispatched.length) := by
  constructor
  · intro cfg env fakeTs n
    obtain ⟨g1, g2, g3, g4, g5⟩ := stInv_produceInner cfg env fakeTs n
    exact ⟨by omega, g3⟩
  · intro cfg env fakeTs n hFa hEa hBa
    cases hcl : env.clientOk
    · rw [produceInner, if_pos (by simp [hcl])]
      rfl
    · rw [produceInner_eq_run cfg env fakeTs n hcl (hBa 0)]
      exact finalize_sent_dispatched env _ (sd_runLoop cfg env hFa hEa hBa _ _ _ rfl)

/-- Witness for `c9_counters_amended` at concrete inputs. -/
theorem c9_counters_amended_witness :
    (produceInner cfgOnePart envBadAck (-1) 2).1.acked +
        (produceInner cfgOnePart envBadAck (-1) 2).1.badOffsetsCtr ≤
      (produceInner cfgOnePart envBadAck (-1) 2).1.sent ∧
    (produceInner cfgOnePart envClean (-1) 2).1.sent =
      (produceInner cfgOnePart envClean (-1) 2).1.dispatched.length := by
  exact ⟨(c9_counters_amended.1 cfgOnePart envBadAck (-1) 2).1,
    c9_counters_amended.2 cfgOnePart envClean (-1) 2 (fun i => rfl) (fun i => rfl)
      (fun i => rfl)⟩

/-- C10: the JSON serialization of the status struct does not contain the
claimed field set — because both `Latency` and `Active` are tagged
`latency` (lines 107 and 109), Go's `encoding/json` drops both conflicting
fields, so the snapshot carries neither a `latency` nor an `active` field,
only the five counter fields. -/
theorem c10_status_serialized_fields :
    jsonVisibleNames statusJsonFields =
      ["sent", "acked", "bad_offsets", "failed_transactions", "restarts"] ∧
    "latency" ∉ jsonVisibleNames statusJsonFields ∧
    "active" ∉ jsonVisibleNames statusJsonFields := by
  refine ⟨by decide, by decide, by decide⟩
